import Mathlib

/-!
Verification of the relay-scheduling state machine in `src/main.cpp` of the
`esp32_mqtt_control` repository (a persisted periodic relay controller driven
by remote text commands).

The embedding below is a direct shallow translation of the C++ source.
`unsigned long` epoch and duration values are modelled as `Nat` (the device
works with epoch-scale seconds, far below the 32-bit wrap); observable
side effects of one evaluation pass (persistence writes, relay pin writes,
acknowledgement publishes) are collected in an explicit `Step` record.
-/

set_option autoImplicit false

namespace Esp32Sched

/-- The `system_config_t` struct of `main.cpp` (lines 43-50). -/
structure SystemConfig where
  interval : Nat
  duration : Nat
  next_on_time : Nat
  off_time : Nat
  is_on : Bool
deriving DecidableEq

/-- Constant `DEFAULT_INTERVAL` (line 37). -/
def DEFAULT_INTERVAL : Nat := 3600

/-- Constant `DEFAULT_DURATION` (line 38). -/
def DEFAULT_DURATION : Nat := 30

/-- Constant `DEFAULT_TURN_ON_AT` (line 40). -/
def DEFAULT_TURN_ON_AT : Nat := 1772431200

/-- Constant `DEFAULT_CONFIG` (line 53). -/
def DEFAULT_CONFIG : SystemConfig :=
  ⟨DEFAULT_INTERVAL, DEFAULT_DURATION, DEFAULT_TURN_ON_AT, 0, false⟩

/-- Scheduler transitions, used to label what a pass of the code executed. -/
inductive SchedEvent where
  | missedReanchor
  | missedOff
  | turnOn
  | turnOff
  | directOn
  | directOff
deriving DecidableEq

/-- Observable outcome of one evaluation pass: the resulting in-memory
`config`, the snapshots written by `saveSchedule()` in order, the values
written to `RELAY_PIN` (`true` = HIGH) in order, the payloads published to
the ack topic (`true` = "ON") in order, and the transitions executed. -/
structure Step where
  config : SystemConfig
  saves : List SystemConfig
  relay : List Bool
  acks : List Bool
  events : List SchedEvent
deriving DecidableEq

/-- A pass that touches nothing. -/
def Step.ofConfig (c : SystemConfig) : Step := ⟨c, [], [], [], []⟩

/-- Sequencing of two evaluation passes: run `f` from the state left by `s`
and concatenate the observable effects. -/
def seqStep (s : Step) (f : SystemConfig → Step) : Step :=
  ⟨(f s.config).config,
   s.saves ++ (f s.config).saves,
   s.relay ++ (f s.config).relay,
   s.acks ++ (f s.config).acks,
   s.events ++ (f s.config).events⟩

/-- The NVS `Preferences` namespace contents: each key is present or absent.
The five keys are only ever written together by `saveSchedule()`. -/
structure Store where
  interval : Option Nat
  duration : Option Nat
  next_on : Option Nat
  off_time : Option Nat
  is_on : Option Nat
deriving DecidableEq

/-- A freshly erased NVS region: every key absent. -/
def emptyStore : Store := ⟨none, none, none, none, none⟩

/-- Function `saveSchedule()` (lines 61-70): writes all five fields. -/
def saveSchedule (c : SystemConfig) : Store :=
  ⟨some c.interval, some c.duration, some c.next_on_time, some c.off_time,
   some (if c.is_on then 1 else 0)⟩

/-- Function `loadSchedule()` (lines 72-81): reads each key with its default. -/
def loadSchedule (st : Store) : SystemConfig :=
  ⟨st.interval.getD DEFAULT_INTERVAL,
   st.duration.getD DEFAULT_DURATION,
   st.next_on.getD DEFAULT_TURN_ON_AT,
   st.off_time.getD 0,
   st.is_on.getD 0 != 0⟩

/-- Function `adjustScheduleForMissedOn(now)` (lines 86-117). -/
def adjustScheduleForMissedOn (c : SystemConfig) (now : Nat) : Step :=
  if c.interval = 0 ∨ c.next_on_time = 0 then Step.ofConfig c
  else if c.next_on_time < now then
    if c.is_on = false then
      ⟨{ c with next_on_time := now + c.interval },
       [{ c with next_on_time := now + c.interval }], [], [],
       [SchedEvent.missedReanchor]⟩
    else if 0 < c.off_time ∧ c.off_time ≤ now then
      ⟨{ c with is_on := false, off_time := 0, next_on_time := now + c.interval },
       [{ c with is_on := false, off_time := 0, next_on_time := now + c.interval }],
       [false], [], [SchedEvent.missedOff]⟩
    else Step.ofConfig c
  else Step.ofConfig c

/-- C `isspace` over ASCII, as applied through `(unsigned char)` casts. -/
def isSpaceC (ch : Char) : Bool :=
  ch.toNat = 32 || (9 ≤ ch.toNat && ch.toNat ≤ 13)

/-- C `toupper` over ASCII. -/
def toUpperC (ch : Char) : Char :=
  if 97 ≤ ch.toNat ∧ ch.toNat ≤ 122 then Char.ofNat (ch.toNat - 32) else ch

/-- C `strstr`: the suffix of `hay` starting at the first occurrence of
`needle`, if any. -/
def strstr : List Char → List Char → Option (List Char)
  | [], needle => if needle.isPrefixOf [] then some [] else none
  | h :: t, needle =>
    if needle.isPrefixOf (h :: t) then some (h :: t) else strstr t needle

/-- C `strchr`: the suffix of `s` starting at the first occurrence of `ch`. -/
def strchr : List Char → Char → Option (List Char)
  | [], _ => none
  | h :: t, ch => if h = ch then some (h :: t) else strchr t ch

/-- Accumulate a decimal digit run, as the conversion loop of `strtoul`. -/
def parseDigits : List Char → Nat → Nat
  | [], acc => acc
  | ch :: t, acc =>
    if 48 ≤ ch.toNat ∧ ch.toNat ≤ 57 then parseDigits t (acc * 10 + (ch.toNat - 48))
    else acc

/-- Whether the head of the list starts a digit run (so `strtoul` converts
at least one digit; otherwise it returns 0). -/
def startsWithDigit : List Char → Bool
  | [] => false
  | ch :: _ => 48 ≤ ch.toNat && ch.toNat ≤ 57

/-- C `strtoul(p, NULL, 10)` on a 32-bit `unsigned long`: skip whitespace,
accept one optional sign, convert the longest digit run; out-of-range values
clamp to `ULONG_MAX`; a minus sign negates in unsigned arithmetic. -/
def strtoul (s : List Char) : Nat :=
  let s1 := s.dropWhile isSpaceC
  match s1 with
  | [] => 0
  | ch :: t =>
    let neg := ch.toNat = 45
    let rest := if ch.toNat = 45 ∨ ch.toNat = 43 then t else ch :: t
    let v := parseDigits rest 0
    if ¬ startsWithDigit rest then 0
    else if 2 ^ 32 ≤ v then 2 ^ 32 - 1
    else if neg then (2 ^ 32 - v) % 2 ^ 32
    else v

/-- Function `parseNumber(src, key)` (lines 120-134): locate `key`, find the `:`
after it, skip whitespace and convert with `strtoul`. -/
def parseNumber (src key : List Char) : Nat :=
  match strstr src key with
  | none => 0
  | some p =>
    match strchr p ':' with
    | none => 0
    | some q => strtoul ((q.drop 1).dropWhile isSpaceC)

/-- Function `getCurrentTime()` (lines 137-146): wall clock when `time(nullptr)`
is at least 100000, otherwise seconds since boot. -/
def getCurrentTime (epochTime uptimeSecs : Nat) : Nat :=
  if 100000 ≤ epochTime then epochTime else uptimeSecs

/-- The `/cardoz/config` branch of `messageReceived` (lines 184-233).
`now` models `time(nullptr)` at the moment the message is handled. -/
def messageReceivedConfig (c : SystemConfig) (payload : List Char) (now : Nat) : Step :=
  let interval := parseNumber payload ("interval".toList)
  let duration := parseNumber payload ("duration".toList)
  let turn_on_at := parseNumber payload ("TURN_ON_AT".toList)
  if interval = 0 ∨ duration = 0 then Step.ofConfig c
  else if now < 100000 then
    Step.ofConfig { c with interval := interval, duration := duration, next_on_time := 0 }
  else if 0 < turn_on_at then
    ⟨⟨interval, duration, turn_on_at, 0, false⟩,
     [⟨interval, duration, turn_on_at, 0, false⟩], [], [], []⟩
  else
    ⟨⟨interval, duration, now + interval, 0, false⟩,
     [⟨interval, duration, now + interval, 0, false⟩], [], [], []⟩

/-- The token-extraction part of the `/cardoz/control` branch
(lines 239-263): either the bare payload truncated to the buffer, or the
value after an `output` key with an optional opening quote skipped. -/
def takeToken : List Char → Nat → List Char
  | [], _ => []
  | _ :: _, 0 => []
  | ch :: t, Nat.succ k =>
    if ch.toNat = 34 ∨ ch.toNat = 39 ∨ ch.toNat = 44 ∨ isSpaceC ch = true then []
    else ch :: takeToken t k

/-- Extract `valbuf` from a control payload (lines 239-263). -/
def extractControlToken (payload : List Char) : List Char :=
  match strstr payload ("output".toList) with
  | none => payload.take 15
  | some p =>
    match strchr p ':' with
    | none => []
    | some q =>
      let r := (q.drop 1).dropWhile isSpaceC
      let r2 := match r with
        | ch :: t => if ch.toNat = 34 ∨ ch.toNat = 39 then t else ch :: t
        | [] => []
      takeToken r2 15

/-- The normalized control token (lines 265-267): `valbuf` upper-cased. -/
def controlToken (payload : List Char) : List Char :=
  (extractControlToken payload).map toUpperC

/-- The `/cardoz/control` branch of `messageReceived` (lines 236-301). -/
def messageReceivedControl (c : SystemConfig) (payload : List Char) (conn : Bool) : Step :=
  if controlToken payload = "ON".toList then
    ⟨{ c with is_on := true, off_time := 0 },
     [{ c with is_on := true, off_time := 0 }], [true],
     if conn then [true] else [], [SchedEvent.directOn]⟩
  else if controlToken payload = "OFF".toList then
    ⟨{ c with is_on := false, off_time := 0 },
     [{ c with is_on := false, off_time := 0 }], [false],
     if conn then [false] else [], [SchedEvent.directOff]⟩
  else Step.ofConfig c

/-- Function `messageReceived(topic, payload)` (lines 177-307), dispatching on the
subscribed topics. -/
def messageReceived (c : SystemConfig) (topic payload : List Char) (now : Nat)
    (conn : Bool) : Step :=
  if topic = "/cardoz/config".toList then messageReceivedConfig c payload now
  else if topic = "/cardoz/control".toList then messageReceivedControl c payload conn
  else Step.ofConfig c

/-- The arming initialization at the top of `loop()` (lines 484-489):
if configured but `next_on_time` is 0, seed it from `now`.  Note: the
source does not persist this write. -/
def initNextOnTime (c : SystemConfig) (now : Nat) : SystemConfig :=
  if 0 < c.interval ∧ c.next_on_time = 0 then { c with next_on_time := now + c.interval }
  else c

/-- The timed turn-on block of `loop()` (lines 495-514). -/
def loopTurnOn (c : SystemConfig) (now : Nat) (conn : Bool) : Step :=
  if c.is_on = false ∧ 0 < c.next_on_time ∧ c.next_on_time ≤ now then
    ⟨⟨c.interval, c.duration, now + c.duration + c.interval, now + c.duration, true⟩,
     [⟨c.interval, c.duration, now + c.duration + c.interval, now + c.duration, true⟩],
     [true], if conn then [true] else [], [SchedEvent.turnOn]⟩
  else Step.ofConfig c

/-- The timed turn-off block of `loop()` (lines 517-530). -/
def loopTurnOff (c : SystemConfig) (now : Nat) (conn : Bool) : Step :=
  if c.is_on = true ∧ 0 < c.off_time ∧ c.off_time ≤ now then
    ⟨{ c with is_on := false, off_time := 0 },
     [{ c with is_on := false, off_time := 0 }],
     [false], if conn then [false] else [], [SchedEvent.turnOff]⟩
  else Step.ofConfig c

/-- One scheduling evaluation of `loop()` (lines 480-530): arming
initialization, missed-activation reconciliation, timed turn-on, timed
turn-off, in source order.  `conn` is `client.connected()`. -/
def tick (c : SystemConfig) (now : Nat) (conn : Bool) : Step :=
  seqStep (seqStep (adjustScheduleForMissedOn (initNextOnTime c now) now)
      (fun c2 => loopTurnOn c2 now conn))
    (fun c3 => loopTurnOff c3 now conn)

/-- The conversion of the seeded `DEFAULT_TURN_ON_AT` epoch in `setup()`
(lines 340-354). -/
def defaultEpochFixup (c : SystemConfig) (startupNow : Nat) : SystemConfig :=
  if c.next_on_time = DEFAULT_TURN_ON_AT then
    if startupNow < 100000 then { c with next_on_time := startupNow + c.interval }
    else if DEFAULT_TURN_ON_AT < startupNow then
      { c with next_on_time := startupNow + c.interval }
    else c
  else c

/-- The relay-state enforcement in `setup()` (lines 358-373). -/
def enforceRelayAtStartup (c : SystemConfig) (now : Nat) : Step :=
  if c.is_on = true ∧ 0 < c.off_time then
    if now < c.off_time then ⟨c, [], [true], [], []⟩
    else
      ⟨{ c with is_on := false, off_time := 0 },
       [{ c with is_on := false, off_time := 0 }], [false], [], []⟩
  else Step.ofConfig c

/-- The startup reconciliation of `setup()` (lines 338-373), applied to the
state restored by `loadSchedule()`. -/
def startupAdjust (c : SystemConfig) (startupNow : Nat) : Step :=
  seqStep (adjustScheduleForMissedOn (defaultEpochFixup c startupNow) startupNow)
    (fun c2 => enforceRelayAtStartup c2 startupNow)

/-- The re-adjustment after NTP sync in `setup()` (lines 428-444). -/
def postSyncAdjust (c : SystemConfig) (syncedNow : Nat) : Step :=
  seqStep (adjustScheduleForMissedOn c syncedNow)
    (fun c2 =>
      if c2.is_on = true ∧ 0 < c2.off_time then
        if syncedNow < c2.off_time then Step.ofConfig c2
        else
          ⟨{ c2 with is_on := false, off_time := 0 },
           [{ c2 with is_on := false, off_time := 0 }], [false], [], []⟩
      else Step.ofConfig c2)

/-- The schedule states the running program can be in: the compile-time
default (also what `loadSchedule` yields from an empty store), closed under
scheduling ticks, the two message handlers, the startup reconciliation and
the post-sync reconciliation.  Every snapshot `saveSchedule` ever writes is
the then-current in-memory state, so states restored from the store are
covered by this closure as well. -/
inductive Reachable : SystemConfig → Prop where
  | boot : Reachable DEFAULT_CONFIG
  | tickStep : ∀ {c : SystemConfig} (now : Nat) (conn : Bool),
      Reachable c → Reachable (tick c now conn).config
  | configStep : ∀ {c : SystemConfig} (payload : List Char) (now : Nat),
      Reachable c → Reachable (messageReceivedConfig c payload now).config
  | controlStep : ∀ {c : SystemConfig} (payload : List Char) (conn : Bool),
      Reachable c → Reachable (messageReceivedControl c payload conn).config
  | startupStep : ∀ {c : SystemConfig} (now : Nat),
      Reachable c → Reachable (startupAdjust c now).config
  | syncStep : ∀ {c : SystemConfig} (now : Nat),
      Reachable c → Reachable (postSyncAdjust c now).config

end Esp32Sched

namespace Esp32Sched

/-- Claim C1: for every tick at time `t` with `interval > 0`,
`next_on_time > 0`, `t > next_on_time` and `is_on = false`, the
missed-activation reconciliation only re-anchors `next_on_time` to
`t + interval` and persists; the relay output and `is_on` are untouched and
no "ON" acknowledgement is published for the missed boundary. -/
theorem C1_missed_on_no_retro_activation (c : SystemConfig) (t : Nat) (conn : Bool)
    (hi : 0 < c.interval) (hn : 0 < c.next_on_time) (ht : c.next_on_time < t)
    (ho : c.is_on = false) :
    tick c t conn =
      ⟨{ c with next_on_time := t + c.interval },
       [{ c with next_on_time := t + c.interval }], [], [],
       [SchedEvent.missedReanchor]⟩ := by
  simp only [tick, seqStep, initNextOnTime, adjustScheduleForMissedOn, loopTurnOn,
    loopTurnOff, Step.ofConfig]
  split_ifs <;> simp_all

/-- Claim C1 witness: a reboot at epoch 10000 with persisted
`next_on_time = 5000`, `is_on = false`, `interval = 3600` yields
`next_on_time = 13600`, the relay stays off and nothing is published. -/
theorem C1_missed_on_no_retro_activation_witness :
    tick ⟨3600, 30, 5000, 0, false⟩ 10000 true =
      ⟨⟨3600, 30, 13600, 0, false⟩, [⟨3600, 30, 13600, 0, false⟩], [], [],
       [SchedEvent.missedReanchor]⟩ :=
  C1_missed_on_no_retro_activation ⟨3600, 30, 5000, 0, false⟩ 10000 true
    (by decide) (by decide) (by decide) rfl

/-- Claim C2: when the turn-on transition is reached at time `t` in the
ARMED state (`is_on = false`, `next_on_time > 0`) with `t ≥ next_on_time`,
the relay is driven on, `is_on := true`, `off_time := t + duration`,
`next_on_time := t + duration + interval`, the state is persisted; for
`duration > 0` and `interval > 0` the new `next_on_time` equals
`off_time + interval` and is strictly greater than `off_time`. -/
theorem C2_turn_on_transition (c : SystemConfig) (t : Nat) (conn : Bool)
    (ho : c.is_on = false) (hn : 0 < c.next_on_time) (ht : c.next_on_time ≤ t) :
    loopTurnOn c t conn =
      ⟨⟨c.interval, c.duration, t + c.duration + c.interval, t + c.duration, true⟩,
       [⟨c.interval, c.duration, t + c.duration + c.interval, t + c.duration, true⟩],
       [true], if conn then [true] else [], [SchedEvent.turnOn]⟩
    ∧ (loopTurnOn c t conn).config.next_on_time
        = (loopTurnOn c t conn).config.off_time + c.interval
    ∧ (0 < c.duration → 0 < c.interval →
        (loopTurnOn c t conn).config.off_time
          < (loopTurnOn c t conn).config.next_on_time) := by
  have h : loopTurnOn c t conn =
      ⟨⟨c.interval, c.duration, t + c.duration + c.interval, t + c.duration, true⟩,
       [⟨c.interval, c.duration, t + c.duration + c.interval, t + c.duration, true⟩],
       [true], if conn then [true] else [], [SchedEvent.turnOn]⟩ := by
    simp only [loopTurnOn]
    rw [if_pos ⟨ho, hn, ht⟩]
  refine ⟨h, ?_, ?_⟩
  · rw [h]
  · intro _ hi
    rw [h]
    simp only
    omega

/-- Claim C2 witness: scenario A — turn-on at epoch 4600 with
`interval = 3600`, `duration = 30` yields `off_time = 4630` and
`next_on_time = 8230 = off_time + interval`. -/
theorem C2_turn_on_transition_witness :
    loopTurnOn ⟨3600, 30, 4600, 0, false⟩ 4600 true =
      ⟨⟨3600, 30, 8230, 4630, true⟩, [⟨3600, 30, 8230, 4630, true⟩],
       [true], [true], [SchedEvent.turnOn]⟩
    ∧ (loopTurnOn ⟨3600, 30, 4600, 0, false⟩ 4600 true).config.next_on_time
        = (loopTurnOn ⟨3600, 30, 4600, 0, false⟩ 4600 true).config.off_time + 3600
    ∧ (loopTurnOn ⟨3600, 30, 4600, 0, false⟩ 4600 true).config.off_time
        < (loopTurnOn ⟨3600, 30, 4600, 0, false⟩ 4600 true).config.next_on_time := by
  obtain ⟨h1, h2, h3⟩ :=
    C2_turn_on_transition ⟨3600, 30, 4600, 0, false⟩ 4600 true rfl (by decide) (by decide)
  exact ⟨h1, h2, h3 (by decide) (by decide)⟩

/-- Claim C8: a reconfigure payload whose `interval` or `duration` field is
absent, unparsable or zero is discarded whole: no state change, no relay
write, no persistence write, no acknowledgement. -/
theorem C8_invalid_reconfigure_discarded (c : SystemConfig) (payload : List Char)
    (now : Nat)
    (h : parseNumber payload ("interval".toList) = 0
        ∨ parseNumber payload ("duration".toList) = 0) :
    messageReceivedConfig c payload now = Step.ofConfig c := by
  rcases h with h | h <;>
    · simp only [messageReceivedConfig, h]
      simp

/-- Claim C8 witness: a payload missing the `interval` field leaves the
default configuration untouched with no effects. -/
theorem C8_invalid_reconfigure_discarded_witness :
    messageReceivedConfig DEFAULT_CONFIG ("duration:30".toList) 200000 =
      Step.ofConfig DEFAULT_CONFIG :=
  C8_invalid_reconfigure_discarded DEFAULT_CONFIG ("duration:30".toList) 200000
    (Or.inl (by decide))

end Esp32Sched

namespace Esp32Sched

/-- Claim C3 counterexample: the reconfigure command
`interval:7200, duration:30, TURN_ON_AT:20000` received at `t = 15000` does
NOT yield `next_on_time = 20000`: the code's usable-time test
(`time(nullptr) >= 100000`) fails at 15000, so `next_on_time` is set to 0
and nothing is persisted. -/
theorem C3_explicit_turn_on_counterexample :
    (messageReceivedConfig DEFAULT_CONFIG
        ("interval:7200,duration:30,TURN_ON_AT:20000".toList) 15000).config.next_on_time
      ≠ 20000
  ∧ (messageReceivedConfig DEFAULT_CONFIG
        ("interval:7200,duration:30,TURN_ON_AT:20000".toList) 15000).config.next_on_time
      = 0
  ∧ (messageReceivedConfig DEFAULT_CONFIG
        ("interval:7200,duration:30,TURN_ON_AT:20000".toList) 15000).saves = [] := by
  decide

/-- Claim C3 as amended: for every valid reconfigure command (positive
parsed `interval` and `duration`) processed while a usable time basis
exists at time `t` (which for this code means `t ≥ 100000`): `interval` and
`duration` are overwritten; `next_on_time` becomes the explicit
`TURN_ON_AT` value verbatim when one is supplied and positive, and
`t + interval` otherwise; in either sub-case `off_time` is cleared,
`is_on` forced false, the relay is not driven, and the state is
persisted. -/
theorem C3_reconfigure_with_time_basis (c : SystemConfig) (payload : List Char)
    (now : Nat)
    (hi : 0 < parseNumber payload ("interval".toList))
    (hd : 0 < parseNumber payload ("duration".toList))
    (hb : 100000 ≤ now) :
    messageReceivedConfig c payload now =
      (if 0 < parseNumber payload ("TURN_ON_AT".toList) then
        ⟨⟨parseNumber payload ("interval".toList), parseNumber payload ("duration".toList),
          parseNumber payload ("TURN_ON_AT".toList), 0, false⟩,
         [⟨parseNumber payload ("interval".toList), parseNumber payload ("duration".toList),
           parseNumber payload ("TURN_ON_AT".toList), 0, false⟩], [], [], []⟩
      else
        ⟨⟨parseNumber payload ("interval".toList), parseNumber payload ("duration".toList),
          now + parseNumber payload ("interval".toList), 0, false⟩,
         [⟨parseNumber payload ("interval".toList), parseNumber payload ("duration".toList),
           now + parseNumber payload ("interval".toList), 0, false⟩], [], [], []⟩) := by
  simp only [messageReceivedConfig]
  rw [if_neg (by omega), if_neg (by omega)]

/-- Claim C3 witness: the scenario payload received at `t = 150000` (a
usable time basis) adopts `TURN_ON_AT = 20000` verbatim, clears `off_time`,
forces `is_on` false and persists, with no relay write. -/
theorem C3_reconfigure_with_time_basis_witness :
    messageReceivedConfig DEFAULT_CONFIG
        ("interval:7200,duration:30,TURN_ON_AT:20000".toList) 150000 =
      ⟨⟨7200, 30, 20000, 0, false⟩, [⟨7200, 30, 20000, 0, false⟩], [], [], []⟩ := by
  rw [C3_reconfigure_with_time_basis DEFAULT_CONFIG
      ("interval:7200,duration:30,TURN_ON_AT:20000".toList) 150000
      (by decide) (by decide) (by decide)]
  decide

/-- Claim C9 counterexample: with an empty persistent store the controller
is NOT unarmed: `loadSchedule` seeds `next_on_time = 1772431200`
(`DEFAULT_TURN_ON_AT`), and without any reconfigure command a tick at that
epoch switches the relay on from built-in defaults alone. -/
theorem C9_unarmed_default_counterexample :
    (loadSchedule emptyStore).next_on_time ≠ 0
  ∧ SchedEvent.turnOn ∈
      (tick (startupAdjust (loadSchedule emptyStore) DEFAULT_TURN_ON_AT).config
        DEFAULT_TURN_ON_AT false).events
  ∧ (tick (startupAdjust (loadSchedule emptyStore) DEFAULT_TURN_ON_AT).config
        DEFAULT_TURN_ON_AT false).relay = [true] := by
  decide

/-- Claim C9 as amended: on first boot with an empty persistent store the
controller seeds a built-in default schedule — `next_on_time =
DEFAULT_TURN_ON_AT = 1772431200`, re-anchored at startup to
`startupNow + interval` when the clock is unsynced (`startupNow < 100000`)
or the default epoch has already passed — and the relay can activate from
these defaults alone, before any reconfigure command is received. -/
theorem C9_default_bootstrap_schedule :
    loadSchedule emptyStore = DEFAULT_CONFIG
  ∧ DEFAULT_CONFIG.next_on_time = 1772431200
  ∧ (∀ (c : SystemConfig) (snow : Nat), c.next_on_time = DEFAULT_TURN_ON_AT →
      snow < 100000 → (defaultEpochFixup c snow).next_on_time = snow + c.interval)
  ∧ (∀ (c : SystemConfig) (snow : Nat), c.next_on_time = DEFAULT_TURN_ON_AT →
      DEFAULT_TURN_ON_AT < snow →
      (defaultEpochFixup c snow).next_on_time = snow + c.interval)
  ∧ SchedEvent.turnOn ∈
      (tick (startupAdjust (loadSchedule emptyStore) DEFAULT_TURN_ON_AT).config
        DEFAULT_TURN_ON_AT false).events := by
  refine ⟨by decide, by decide, ?_, ?_, by decide⟩
  · intro c snow h1 h2
    simp only [defaultEpochFixup]
    rw [if_pos h1, if_pos h2]
  · intro c snow h1 h2
    simp only [defaultEpochFixup]
    rw [if_pos h1, if_neg (by simp only [DEFAULT_TURN_ON_AT] at h2; omega), if_pos h2]

/-- Claim C9 amended witness: an offline startup (uptime clock at 50
seconds) converts the seeded default epoch into a relative schedule
`50 + interval`. -/
theorem C9_default_bootstrap_schedule_witness :
    (defaultEpochFixup ⟨3600, 30, 1772431200, 0, false⟩ 50).next_on_time = 3650 :=
  C9_default_bootstrap_schedule.2.2.1 ⟨3600, 30, 1772431200, 0, false⟩ 50 rfl (by decide)

/-- Claim C7 counterexample: a connected tick in which the
missed-off branch of `adjustScheduleForMissedOn` fires changes the relay
(drives it LOW) but publishes no acknowledgement at all: the relay
transition happens with the transport connected and no matching "OFF" is
sent. -/
theorem C7_missed_off_no_ack_counterexample :
    (tick ⟨3600, 30, 4630, 1030, true⟩ 5000 true).events = [SchedEvent.missedOff]
  ∧ (tick ⟨3600, 30, 4630, 1030, true⟩ 5000 true).relay = [false]
  ∧ (tick ⟨3600, 30, 4630, 1030, true⟩ 5000 true).acks = [] := by
  decide

set_option maxHeartbeats 1600000 in
/-- Claim C7 as amended: while the transport is connected, the timed
turn-on and turn-off transitions of the loop publish a matching
acknowledgement in the same step, and a direct command's acknowledgements
match its relay writes exactly; the one exception is the missed-off forced
turn-off inside the reconciliation, which drives the relay LOW without
publishing any acknowledgement. -/
theorem C7_ack_on_connected_transitions (c : SystemConfig) (now : Nat)
    (payload : List Char) :
    (SchedEvent.turnOn ∈ (tick c now true).events → true ∈ (tick c now true).acks)
  ∧ (SchedEvent.turnOff ∈ (tick c now true).events → false ∈ (tick c now true).acks)
  ∧ (messageReceivedControl c payload true).acks = (messageReceivedControl c payload true).relay
  ∧ (SchedEvent.missedOff ∈ (tick c now true).events → false ∈ (tick c now true).relay) := by
  refine ⟨?_, ?_, ?_, ?_⟩
  · simp only [tick, seqStep, initNextOnTime, adjustScheduleForMissedOn, loopTurnOn,
      loopTurnOff, Step.ofConfig]
    split_ifs <;> simp_all
  · simp only [tick, seqStep, initNextOnTime, adjustScheduleForMissedOn, loopTurnOn,
      loopTurnOff, Step.ofConfig]
    split_ifs <;> simp_all
  · simp only [messageReceivedControl, Step.ofConfig]
    split_ifs <;> simp_all
  · simp only [tick, seqStep, initNextOnTime, adjustScheduleForMissedOn, loopTurnOn,
      loopTurnOff, Step.ofConfig]
    split_ifs <;> simp_all

/-- Claim C7 amended witness: a connected timed turn-on publishes "ON" in
the same step. -/
theorem C7_ack_on_connected_transitions_witness :
    true ∈ (tick ⟨3600, 30, 4600, 0, false⟩ 4600 true).acks :=
  (C7_ack_on_connected_transitions ⟨3600, 30, 4600, 0, false⟩ 4600 []).1 (by decide)

end Esp32Sched

namespace Esp32Sched

/-- A tick started from a state with the relay recorded off and no pending
`off_time` never executes a timed or missed turn-off, provided the
configured `duration` is positive. -/
theorem tick_from_off_state_no_off_transition (c : SystemConfig) (now : Nat)
    (conn : Bool) (hd : 0 < c.duration) (ho : c.is_on = false)
    (hf : c.off_time = 0) :
    SchedEvent.turnOff ∉ (tick c now conn).events
    ∧ SchedEvent.missedOff ∉ (tick c now conn).events := by
  simp only [tick, seqStep, initNextOnTime, adjustScheduleForMissedOn, loopTurnOn,
    loopTurnOff, Step.ofConfig]
  split_ifs <;> simp_all

/-- Claim C6: a parsed set-output command drives the relay to the requested
level, sets `is_on` accordingly, clears `off_time`, publishes an
acknowledgement when connected and persists, leaving `interval`,
`duration` and `next_on_time` unchanged; after an "OFF" received in any
state with positive `duration`, a later tick (in particular one with
`now` past the old `off_time`) never executes the timed turn-off
transition nor the missed-off transition. -/
theorem C6_direct_command_precedence (c : SystemConfig) (payload : List Char)
    (conn : Bool) (now : Nat) :
    (controlToken payload = "ON".toList →
      messageReceivedControl c payload conn =
        ⟨{ c with is_on := true, off_time := 0 },
         [{ c with is_on := true, off_time := 0 }], [true],
         if conn then [true] else [], [SchedEvent.directOn]⟩)
  ∧ (controlToken payload = "OFF".toList →
      messageReceivedControl c payload conn =
        ⟨{ c with is_on := false, off_time := 0 },
         [{ c with is_on := false, off_time := 0 }], [false],
         if conn then [false] else [], [SchedEvent.directOff]⟩)
  ∧ (controlToken payload = "OFF".toList → 0 < c.duration →
      SchedEvent.turnOff ∉
          (tick (messageReceivedControl c payload conn).config now conn).events
      ∧ SchedEvent.missedOff ∉
          (tick (messageReceivedControl c payload conn).config now conn).events) := by
  refine ⟨?_, ?_, ?_⟩
  · intro h
    simp only [messageReceivedControl]
    rw [h, if_pos rfl]
  · intro h
    simp only [messageReceivedControl]
    rw [h, if_neg (by decide), if_pos rfl]
  · intro h hd
    have hc : (messageReceivedControl c payload conn).config =
        { c with is_on := false, off_time := 0 } := by
      simp only [messageReceivedControl]
      rw [h, if_neg (by decide), if_pos rfl]
    rw [hc]
    exact tick_from_off_state_no_off_transition _ now conn hd rfl rfl

/-- Claim C6 witness: an "OFF" received while `is_on = true` and
`off_time = 4630 > 0` clears the pending auto-off; a tick at
`now = 4630` (the old `off_time`) performs no turn-off transition. -/
theorem C6_direct_command_precedence_witness :
    messageReceivedControl ⟨3600, 30, 8230, 4630, true⟩ ("OFF".toList) true =
      ⟨⟨3600, 30, 8230, 0, false⟩, [⟨3600, 30, 8230, 0, false⟩], [false], [false],
       [SchedEvent.directOff]⟩
  ∧ SchedEvent.turnOff ∉
      (tick (messageReceivedControl ⟨3600, 30, 8230, 4630, true⟩
        ("OFF".toList) true).config 4630 true).events := by
  obtain ⟨-, h2, h3⟩ :=
    C6_direct_command_precedence ⟨3600, 30, 8230, 4630, true⟩ ("OFF".toList) true 4630
  exact ⟨h2 (by decide), (h3 (by decide) (by decide)).1⟩

end Esp32Sched

namespace Esp32Sched

/-- The snapshot trail of a pass ends in its final in-memory state
(vacuously when the pass wrote nothing). -/
def lastSaveMatches (s : Step) : Prop :=
  s.saves.getLast?.getD s.config = s.config

/-- An evaluation pass starting from `c` either wrote nothing and left the
state at `c`, or its single snapshot is its final state. -/
def SavesFaithful (s : Step) (c : SystemConfig) : Prop :=
  (s.saves = [] ∧ s.config = c) ∨ s.saves = [s.config]

theorem lastSaveMatches_of_savesFaithful {s : Step} {c : SystemConfig}
    (h : SavesFaithful s c) : lastSaveMatches s := by
  rcases h with ⟨h1, -⟩ | h1 <;> simp [lastSaveMatches, h1]

theorem lastSaveMatches_seqStep {s : Step} {f : SystemConfig → Step}
    (hs : lastSaveMatches s) (hf : SavesFaithful (f s.config) s.config) :
    lastSaveMatches (seqStep s f) := by
  rcases hf with ⟨h1, h2⟩ | h1
  · simpa [lastSaveMatches, seqStep, h1, h2] using hs
  · simp [lastSaveMatches, seqStep, h1, List.getLast?_append_cons]

theorem savesFaithful_adjust (c : SystemConfig) (now : Nat) :
    SavesFaithful (adjustScheduleForMissedOn c now) c := by
  simp only [SavesFaithful, adjustScheduleForMissedOn, Step.ofConfig]
  split_ifs <;> simp

theorem savesFaithful_loopTurnOn (c : SystemConfig) (now : Nat) (conn : Bool) :
    SavesFaithful (loopTurnOn c now conn) c := by
  simp only [SavesFaithful, loopTurnOn, Step.ofConfig]
  split_ifs <;> simp

theorem savesFaithful_loopTurnOff (c : SystemConfig) (now : Nat) (conn : Bool) :
    SavesFaithful (loopTurnOff c now conn) c := by
  simp only [SavesFaithful, loopTurnOff, Step.ofConfig]
  split_ifs <;> simp

theorem savesFaithful_enforce (c : SystemConfig) (now : Nat) :
    SavesFaithful (enforceRelayAtStartup c now) c := by
  simp only [SavesFaithful, enforceRelayAtStartup, Step.ofConfig]
  split_ifs <;> simp

theorem savesFaithful_configMsg (c : SystemConfig) (payload : List Char) (now : Nat) :
    SavesFaithful (messageReceivedConfig c payload now) c ∨
    (messageReceivedConfig c payload now).saves = [] := by
  simp only [SavesFaithful, messageReceivedConfig, Step.ofConfig]
  split_ifs <;> simp

theorem events_saves_adjust (c : SystemConfig) (now : Nat) :
    (adjustScheduleForMissedOn c now).events ≠ [] →
    (adjustScheduleForMissedOn c now).saves ≠ [] := by
  simp only [adjustScheduleForMissedOn, Step.ofConfig]
  split_ifs <;> simp

theorem events_saves_loopTurnOn (c : SystemConfig) (now : Nat) (conn : Bool) :
    (loopTurnOn c now conn).events ≠ [] → (loopTurnOn c now conn).saves ≠ [] := by
  simp only [loopTurnOn, Step.ofConfig]
  split_ifs <;> simp

theorem events_saves_loopTurnOff (c : SystemConfig) (now : Nat) (conn : Bool) :
    (loopTurnOff c now conn).events ≠ [] → (loopTurnOff c now conn).saves ≠ [] := by
  simp only [loopTurnOff, Step.ofConfig]
  split_ifs <;> simp

theorem events_saves_seqStep {s : Step} {f : SystemConfig → Step}
    (hs : s.events ≠ [] → s.saves ≠ [])
    (hf : (f s.config).events ≠ [] → (f s.config).saves ≠ []) :
    (seqStep s f).events ≠ [] → (seqStep s f).saves ≠ [] := by
  simp only [seqStep, ne_eq, List.append_eq_nil]
  intro h
  rcases Decidable.em (s.events = []) with he | he
  · have := hf (by simpa [he] using h)
    simp_all
  · have := hs he
    simp_all

/-- Claim C4 counterexample: a reconfigure command handled before a usable
time basis exists (`time(nullptr) = 50`) overwrites `interval`, `duration`
and `next_on_time` in memory but performs no persistence write at all, so
the on-disk state differs from the in-memory state when the handler
completes. -/
theorem C4_unpersisted_mutation_counterexample :
    (messageReceivedConfig DEFAULT_CONFIG ("interval:7200,duration:30".toList) 50).config
      ≠ DEFAULT_CONFIG
  ∧ (messageReceivedConfig DEFAULT_CONFIG ("interval:7200,duration:30".toList) 50).saves
      = [] := by
  decide

/-- Claim C4 as amended: whenever a tick, a message handler, the startup
reconciliation or the post-sync reconciliation performs any persistence
write, the last snapshot written equals the final in-memory state (all five
fields as a group); every scheduler transition of a tick and every direct
command persists; and a valid reconfigure under a usable time basis
persists.  (The arming initialization, the startup default-epoch
conversion and the no-time-basis reconfigure mutate memory without
persisting, which is what the counterexample exhibits.) -/
theorem C4_persist_after_mutation (c : SystemConfig) (now : Nat) (conn : Bool)
    (payload p2 : List Char) :
    lastSaveMatches (tick c now conn)
  ∧ lastSaveMatches (messageReceivedConfig c payload now)
  ∧ lastSaveMatches (messageReceivedControl c p2 conn)
  ∧ lastSaveMatches (startupAdjust c now)
  ∧ lastSaveMatches (postSyncAdjust c now)
  ∧ ((tick c now conn).events ≠ [] → (tick c now conn).saves ≠ [])
  ∧ ((messageReceivedControl c p2 conn).events ≠ [] →
      (messageReceivedControl c p2 conn).saves ≠ [])
  ∧ (100000 ≤ now →
      ¬(parseNumber payload ("interval".toList) = 0
        ∨ parseNumber payload ("duration".toList) = 0) →
      (messageReceivedConfig c payload now).saves ≠ []) := by
  refine ⟨?_, ?_, ?_, ?_, ?_, ?_, ?_, ?_⟩
  · exact lastSaveMatches_seqStep
      (lastSaveMatches_seqStep
        (lastSaveMatches_of_savesFaithful (savesFaithful_adjust _ now))
        (savesFaithful_loopTurnOn _ now conn))
      (savesFaithful_loopTurnOff _ now conn)
  · rcases savesFaithful_configMsg c payload now with h | h
    · exact lastSaveMatches_of_savesFaithful h
    · simp [lastSaveMatches, h]
  · simp only [lastSaveMatches, messageReceivedControl, Step.ofConfig]
    split_ifs <;> simp
  · exact lastSaveMatches_seqStep
      (lastSaveMatches_of_savesFaithful (savesFaithful_adjust _ now))
      (savesFaithful_enforce _ now)
  · apply lastSaveMatches_seqStep
      (lastSaveMatches_of_savesFaithful (savesFaithful_adjust _ now))
    simp only [SavesFaithful, Step.ofConfig]
    split_ifs <;> simp
  · exact events_saves_seqStep
      (events_saves_seqStep (events_saves_adjust _ now) (events_saves_loopTurnOn _ now conn))
      (events_saves_loopTurnOff _ now conn)
  · simp only [messageReceivedControl, Step.ofConfig]
    split_ifs <;> simp
  · intro hb hv
    simp only [messageReceivedConfig, Step.ofConfig]
    rw [if_neg hv, if_neg (by omega)]
    split_ifs <;> simp

/-- Claim C4 amended witness: the scenario-A turn-on tick persists, and a
valid reconfigure at epoch 200000 persists. -/
theorem C4_persist_after_mutation_witness :
    (tick ⟨3600, 30, 4600, 0, false⟩ 4600 true).saves ≠ []
  ∧ (messageReceivedConfig DEFAULT_CONFIG ("interval:7200,duration:30".toList) 200000).saves
      ≠ [] := by
  obtain ⟨-, -, -, -, -, h6, -, -⟩ :=
    C4_persist_after_mutation ⟨3600, 30, 4600, 0, false⟩ 4600 true
      ("interval:7200,duration:30".toList) []
  obtain ⟨-, -, -, -, -, -, -, h8⟩ :=
    C4_persist_after_mutation DEFAULT_CONFIG 200000 true
      ("interval:7200,duration:30".toList) []
  exact ⟨h6 (by decide), h8 (by decide) (by decide)⟩

end Esp32Sched

namespace Esp32Sched

theorem tick_config_eq (c : SystemConfig) (now : Nat) (conn : Bool) :
    (tick c now conn).config =
      (loopTurnOff
        ((loopTurnOn ((adjustScheduleForMissedOn (initNextOnTime c now) now).config)
          now conn).config) now conn).config := rfl

theorem seqStep_ofConfig (c : SystemConfig) (f : SystemConfig → Step) :
    seqStep (Step.ofConfig c) f = f c := by
  simp [seqStep, Step.ofConfig]

theorem initNextOnTime_interval (c : SystemConfig) (now : Nat) :
    (initNextOnTime c now).interval = c.interval := by
  simp only [initNextOnTime]
  split_ifs <;> rfl

theorem adjust_config_interval (c : SystemConfig) (now : Nat) :
    (adjustScheduleForMissedOn c now).config.interval = c.interval := by
  simp only [adjustScheduleForMissedOn, Step.ofConfig]
  split_ifs <;> rfl

theorem loopTurnOn_config_interval (c : SystemConfig) (now : Nat) (conn : Bool) :
    (loopTurnOn c now conn).config.interval = c.interval := by
  simp only [loopTurnOn, Step.ofConfig]
  split_ifs <;> rfl

theorem loopTurnOff_config_interval (c : SystemConfig) (now : Nat) (conn : Bool) :
    (loopTurnOff c now conn).config.interval = c.interval := by
  simp only [loopTurnOff, Step.ofConfig]
  split_ifs <;> rfl

theorem tick_config_interval (c : SystemConfig) (now : Nat) (conn : Bool) :
    (tick c now conn).config.interval = c.interval := by
  rw [tick_config_eq, loopTurnOff_config_interval, loopTurnOn_config_interval,
    adjust_config_interval, initNextOnTime_interval]

theorem initNextOnTime_next_pos (c : SystemConfig) (now : Nat) (hi : 0 < c.interval) :
    0 < (initNextOnTime c now).next_on_time := by
  simp only [initNextOnTime]
  split_ifs with h
  · simp_all
  · omega

theorem adjust_config_next_pos (c : SystemConfig) (now : Nat)
    (hi : 0 < c.interval) (hn : 0 < c.next_on_time) :
    0 < (adjustScheduleForMissedOn c now).config.next_on_time := by
  simp only [adjustScheduleForMissedOn, Step.ofConfig]
  split_ifs <;> simp_all

theorem loopTurnOn_config_next_pos (c : SystemConfig) (now : Nat) (conn : Bool)
    (hi : 0 < c.interval) (hn : 0 < c.next_on_time) :
    0 < (loopTurnOn c now conn).config.next_on_time := by
  simp only [loopTurnOn, Step.ofConfig]
  split_ifs <;> simp_all

theorem loopTurnOff_config_next (c : SystemConfig) (now : Nat) (conn : Bool) :
    (loopTurnOff c now conn).config.next_on_time = c.next_on_time := by
  simp only [loopTurnOff, Step.ofConfig]
  split_ifs <;> rfl

theorem tick_config_next_pos (c : SystemConfig) (now : Nat) (conn : Bool)
    (hi : 0 < c.interval) : 0 < (tick c now conn).config.next_on_time := by
  rw [tick_config_eq, loopTurnOff_config_next]
  apply loopTurnOn_config_next_pos
  · rw [adjust_config_interval, initNextOnTime_interval]
    exact hi
  · apply adjust_config_next_pos
    · rw [initNextOnTime_interval]
      exact hi
    · exact initNextOnTime_next_pos c now hi

theorem loopTurnOff_no_pending (c : SystemConfig) (now : Nat) (conn : Bool) :
    ¬((loopTurnOff c now conn).config.is_on = true
      ∧ 0 < (loopTurnOff c now conn).config.off_time
      ∧ (loopTurnOff c now conn).config.off_time ≤ now) := by
  simp only [loopTurnOff, Step.ofConfig]
  split_ifs with h <;> simp_all

theorem tick_no_pending_off (c : SystemConfig) (now : Nat) (conn : Bool) :
    ¬((tick c now conn).config.is_on = true
      ∧ 0 < (tick c now conn).config.off_time
      ∧ (tick c now conn).config.off_time ≤ now) := by
  rw [tick_config_eq]
  apply loopTurnOff_no_pending

theorem tick_next_zero_interval (c : SystemConfig) (now : Nat) (conn : Bool)
    (h : (tick c now conn).config.next_on_time = 0) :
    (tick c now conn).config.interval = 0 := by
  by_contra hne
  have hi : 0 < c.interval := by
    rw [tick_config_interval] at hne
    omega
  have := tick_config_next_pos c now conn hi
  omega

theorem initNextOnTime_noop (c : SystemConfig) (now : Nat)
    (h1 : c.next_on_time = 0 → c.interval = 0) :
    initNextOnTime c now = c := by
  simp only [initNextOnTime]
  split_ifs with h
  · exact absurd (h1 h.2) (by omega)
  · rfl

theorem adjust_noop (c : SystemConfig) (now : Nat)
    (h2 : ¬(c.is_on = false ∧ 0 < c.next_on_time ∧ c.next_on_time ≤ now))
    (h3 : ¬(c.is_on = true ∧ 0 < c.off_time ∧ c.off_time ≤ now)) :
    adjustScheduleForMissedOn c now = Step.ofConfig c := by
  simp only [adjustScheduleForMissedOn]
  split_ifs with hg hlt hb hoff
  · rfl
  · exact absurd ⟨hb, by omega, by omega⟩ h2
  · refine absurd ⟨?_, hoff.1, hoff.2⟩ h3
    simpa using hb
  · rfl
  · rfl

theorem loopTurnOn_noop (c : SystemConfig) (now : Nat) (conn : Bool)
    (h2 : ¬(c.is_on = false ∧ 0 < c.next_on_time ∧ c.next_on_time ≤ now)) :
    loopTurnOn c now conn = Step.ofConfig c := by
  simp only [loopTurnOn]
  rw [if_neg h2]

theorem loopTurnOff_noop (c : SystemConfig) (now : Nat) (conn : Bool)
    (h3 : ¬(c.is_on = true ∧ 0 < c.off_time ∧ c.off_time ≤ now)) :
    loopTurnOff c now conn = Step.ofConfig c := by
  simp only [loopTurnOff]
  rw [if_neg h3]

theorem tick_noop_of (c : SystemConfig) (now : Nat) (conn : Bool)
    (h1 : c.next_on_time = 0 → c.interval = 0)
    (h2 : ¬(c.is_on = false ∧ 0 < c.next_on_time ∧ c.next_on_time ≤ now))
    (h3 : ¬(c.is_on = true ∧ 0 < c.off_time ∧ c.off_time ≤ now)) :
    tick c now conn = Step.ofConfig c := by
  unfold tick
  rw [initNextOnTime_noop c now h1, adjust_noop c now h2 h3, seqStep_ofConfig,
    loopTurnOn_noop c now conn h2, seqStep_ofConfig, loopTurnOff_noop c now conn h3]

end Esp32Sched

namespace Esp32Sched

/-- A reachable state with an in-progress cycle: obtained from the default
configuration by a valid reconfigure at epoch 100000 followed by the
scheduled turn-on tick at 103600. -/
def activeSample : SystemConfig :=
  (tick (messageReceivedConfig DEFAULT_CONFIG
    ("interval:3600,duration:30".toList) 100000).config 103600 false).config

/-- Claim C5 counterexample: ticking twice with the same `now` is NOT
always a no-op on reachable states.  From the reachable state
`activeSample` (relay on, `off_time = 103630`, `next_on_time = 107230`), a
first tick at `now = 107230` executes the turn-off; the second tick with
the same `now` finds the activation due (`next_on_time = 107230 ≤ now`)
and performs the turn-on: it changes the state and writes to the store
again. -/
theorem C5_second_tick_counterexample :
    Reachable activeSample
  ∧ (tick (tick activeSample 107230 false).config 107230 false).config
      ≠ (tick activeSample 107230 false).config
  ∧ (tick (tick activeSample 107230 false).config 107230 false).saves ≠ [] := by
  refine ⟨?_, by decide, by decide⟩
  exact Reachable.tickStep 103600 false
    (Reachable.configStep ("interval:3600,duration:30".toList) 100000 Reachable.boot)

/-- Claim C5 as amended: the tick evaluation is idempotent except when the
first tick leaves an already-due activation pending: for every state and
`now`, if the state after the first tick is not (relay recorded off with
`0 < next_on_time ≤ now`), then a second tick with the same `now` changes
nothing — no state change, no persistence write, no relay write, no
publish.  (The excluded case arises when the first tick executed a
turn-off at `now ≥ next_on_time`; the second tick then performs the due
turn-on, as the counterexample shows.) -/
theorem C5_tick_idempotent_unless_due (c : SystemConfig) (now : Nat)
    (conn conn2 : Bool)
    (h : ¬((tick c now conn).config.is_on = false
          ∧ 0 < (tick c now conn).config.next_on_time
          ∧ (tick c now conn).config.next_on_time ≤ now)) :
    tick (tick c now conn).config now conn2 =
      Step.ofConfig (tick c now conn).config :=
  tick_noop_of (tick c now conn).config now conn2
    (tick_next_zero_interval c now conn) h (tick_no_pending_off c now conn)

/-- Claim C5 amended witness: after the missed-activation re-anchor tick of
scenario B, a second tick at the same `now = 10000` is a complete no-op. -/
theorem C5_tick_idempotent_unless_due_witness :
    tick (tick ⟨3600, 30, 5000, 0, false⟩ 10000 true).config 10000 true =
      Step.ofConfig (tick ⟨3600, 30, 5000, 0, false⟩ 10000 true).config :=
  C5_tick_idempotent_unless_due ⟨3600, 30, 5000, 0, false⟩ 10000 true true (by decide)

end Esp32Sched

namespace Esp32Sched

/-- The claimed invariant: a pending auto-off timestamp only exists while
the relay is recorded on. -/
def ScheduleInv (c : SystemConfig) : Prop :=
  0 < c.off_time → c.is_on = true

theorem inv_initNextOnTime {c : SystemConfig} (now : Nat) (h : ScheduleInv c) :
    ScheduleInv (initNextOnTime c now) := by
  simp only [ScheduleInv, initNextOnTime] at *
  split_ifs <;> simp_all

theorem inv_adjust {c : SystemConfig} (now : Nat) (h : ScheduleInv c) :
    ScheduleInv (adjustScheduleForMissedOn c now).config := by
  simp only [ScheduleInv, adjustScheduleForMissedOn, Step.ofConfig] at *
  split_ifs <;> simp_all

theorem inv_loopTurnOn {c : SystemConfig} (now : Nat) (conn : Bool)
    (h : ScheduleInv c) : ScheduleInv (loopTurnOn c now conn).config := by
  simp only [ScheduleInv, loopTurnOn, Step.ofConfig] at *
  split_ifs <;> simp_all

theorem inv_loopTurnOff {c : SystemConfig} (now : Nat) (conn : Bool)
    (h : ScheduleInv c) : ScheduleInv (loopTurnOff c now conn).config := by
  simp only [ScheduleInv, loopTurnOff, Step.ofConfig] at *
  split_ifs <;> simp_all

theorem inv_tick {c : SystemConfig} (now : Nat) (conn : Bool) (h : ScheduleInv c) :
    ScheduleInv (tick c now conn).config := by
  rw [tick_config_eq]
  exact inv_loopTurnOff now conn (inv_loopTurnOn now conn
    (inv_adjust now (inv_initNextOnTime now h)))

theorem inv_configMsg {c : SystemConfig} (payload : List Char) (now : Nat)
    (h : ScheduleInv c) : ScheduleInv (messageReceivedConfig c payload now).config := by
  simp only [ScheduleInv, messageReceivedConfig, Step.ofConfig] at *
  split_ifs <;> simp_all

theorem inv_controlMsg {c : SystemConfig} (payload : List Char) (conn : Bool)
    (h : ScheduleInv c) : ScheduleInv (messageReceivedControl c payload conn).config := by
  simp only [ScheduleInv, messageReceivedControl, Step.ofConfig] at *
  split_ifs <;> simp_all

theorem inv_enforce {c : SystemConfig} (now : Nat) (h : ScheduleInv c) :
    ScheduleInv (enforceRelayAtStartup c now).config := by
  simp only [ScheduleInv, enforceRelayAtStartup, Step.ofConfig] at *
  split_ifs <;> simp_all

theorem inv_defaultEpochFixup {c : SystemConfig} (now : Nat) (h : ScheduleInv c) :
    ScheduleInv (defaultEpochFixup c now) := by
  simp only [ScheduleInv, defaultEpochFixup] at *
  split_ifs <;> simp_all

theorem inv_startupAdjust {c : SystemConfig} (now : Nat) (h : ScheduleInv c) :
    ScheduleInv (startupAdjust c now).config := by
  have : (startupAdjust c now).config =
      (enforceRelayAtStartup
        ((adjustScheduleForMissedOn (defaultEpochFixup c now) now).config) now).config :=
    rfl
  rw [this]
  exact inv_enforce now (inv_adjust now (inv_defaultEpochFixup now h))

theorem inv_postSyncAdjust {c : SystemConfig} (now : Nat) (h : ScheduleInv c) :
    ScheduleInv (postSyncAdjust c now).config := by
  have h2 := inv_adjust now h
  generalize hx : (adjustScheduleForMissedOn c now).config = c2 at h2
  have : (postSyncAdjust c now).config =
      (if c2.is_on = true ∧ 0 < c2.off_time then
        if now < c2.off_time then Step.ofConfig c2
        else
          ⟨{ c2 with is_on := false, off_time := 0 },
           [{ c2 with is_on := false, off_time := 0 }], [false], [], []⟩
      else Step.ofConfig c2).config := by
    simp only [postSyncAdjust, seqStep, hx]
  rw [this]
  simp only [ScheduleInv, Step.ofConfig] at *
  split_ifs <;> simp_all

/-- Claim C10: in every reachable schedule state — the default
configuration or anything restorable from the store, closed under ticks,
message handling, startup reconciliation and post-sync reconciliation —
`off_time > 0` implies `is_on = true`: a pending auto-off timestamp never
survives while the relay is recorded off. -/
theorem C10_pending_off_implies_on (c : SystemConfig) (h : Reachable c) :
    0 < c.off_time → c.is_on = true := by
  induction h with
  | boot => intro h0; simp [DEFAULT_CONFIG] at h0
  | tickStep now conn _ ih => exact inv_tick now conn ih
  | configStep payload now _ ih => exact inv_configMsg payload now ih
  | controlStep payload conn _ ih => exact inv_controlMsg payload conn ih
  | startupStep now _ ih => exact inv_startupAdjust now ih
  | syncStep now _ ih => exact inv_postSyncAdjust now ih

/-- Claim C10 witness: the state reached by the default schedule's turn-on
tick has `off_time = 1772431230 > 0`, and the theorem yields
`is_on = true` there. -/
theorem C10_pending_off_implies_on_witness :
    ((tick DEFAULT_CONFIG 1772431200 false).config).is_on = true :=
  C10_pending_off_implies_on (tick DEFAULT_CONFIG 1772431200 false).config
    (Reachable.tickStep 1772431200 false Reachable.boot) (by decide)

end Esp32Sched
